import Mathlib

/-!
Shallow embedding of `src-tauri/src/lib.rs` from the kb2midi repository.

The Rust file defines a Tauri application with:
  * a shared boolean `AppState.always_on_top` behind `Arc<Mutex<bool>>`,
    initialized to `true` in `run`'s setup closure;
  * a `toggle_always_on_top` command that flips the flag and then calls
    `window.set_always_on_top(new)` mapping an error to its string;
  * a tray menu handler (`on_menu_event`) for ids `"show"`,
    `"always_on_top"`, `"quit"`, anything else being a no-op;
  * a tray icon pointer handler reacting to left-button-up clicks;
  * a single-instance plugin callback showing and focusing the main window;
  * a window event listener emitting `"app-focus"` / `"app-blur"`.

Window-manager calls are modelled as emitted operations (`WindowOp`) in a
trace, since the Rust handlers discard their results (`let _ = ...`); the
one place a result matters — the `toggle_always_on_top` command — takes the
window call's outcome as an explicit `Bool → Except String Unit` argument.
The lookup `app.get_webview_window("main")` is modelled by a boolean
`hasMainWindow` saying whether the lookup succeeds.
-/

namespace Kb2Midi

/-- Operations issued through the Tauri window handle. `createWindow` never
occurs in any handler of the source; it is present so "no new window is
created" is expressible. -/
inductive WindowOp where
  | showWindow
  | setFocus
  | setAlwaysOnTop (b : Bool)
  | createWindow
deriving DecidableEq, Repr

/-- Mouse buttons, from `tauri::tray::MouseButton`. -/
inductive MouseButton where
  | left
  | right
  | middle
deriving DecidableEq, Repr

/-- Mouse button states, from `tauri::tray::MouseButtonState`. -/
inductive MouseButtonState where
  | up
  | down
deriving DecidableEq, Repr

/-- Tray icon pointer events, from `tauri::tray::TrayIconEvent`: the handler
only distinguishes `Click { button, button_state, .. }`; every other variant
(enter, move, leave, double click) is collapsed to `other` since the Rust
`if let` falls through for all of them. -/
inductive TrayEvent where
  | click (button : MouseButton) (buttonState : MouseButtonState)
  | other
deriving DecidableEq, Repr

/-- Window events, from `tauri::WindowEvent`: the listener only matches
`Focused(bool)`; all other variants hit the `_ => {}` arm. -/
inductive WindowEvent where
  | focused (b : Bool)
  | other
deriving DecidableEq, Repr

/-- Observable process state touched by the tray menu handler: the shared
always-on-top flag and the exit code passed to `app.exit`, if any. -/
structure SysState where
  always_on_top : Bool
  exited : Option Nat
deriving DecidableEq, Repr

/-- Initial value of the shared flag: `Arc::new(Mutex::new(true))` in the
setup closure of `run`. -/
def initialAlwaysOnTop : Bool := true

/-- One guarded toggle of the flag: `*always_on_top = !*always_on_top`. -/
def toggleFlag (b : Bool) : Bool := !b

/-- `n` successive applications of the guarded toggle. -/
def toggleN : Nat → Bool → Bool
  | 0, b => b
  | n + 1, b => toggleN n (toggleFlag b)

/-- The `toggle_always_on_top` Tauri command: locks the mutex, flips the
flag, then calls `window.set_always_on_top(*always_on_top)` with the new
value, mapping a window error to its string and returning early on error,
else returning `Ok(new)`. The window call's outcome for a requested value is
supplied by `res`. The returned pair is (stored flag after the call,
command result). -/
def toggle_always_on_top (flag : Bool) (res : Bool → Except String Unit) :
    Bool × Except String Bool :=
  let newFlag := !flag
  match res newFlag with
  | Except.ok _ => (newFlag, Except.ok newFlag)
  | Except.error e => (newFlag, Except.error e)

/-- The tray menu handler from `setup_tray`'s `on_menu_event` closure,
matching on the event id. `"show"` and `"always_on_top"` first look up the
window labeled `"main"` (`hasMainWindow` says whether that succeeds) and do
nothing when it is absent; window call results are discarded (`let _ =`), so
only the issued operations are recorded. `"quit"` calls `app.exit(0)`; any
other id falls through to the empty arm. -/
def on_menu_event (id : String) (hasMainWindow : Bool) (s : SysState) :
    SysState × List WindowOp :=
  if id = "show" then
    if hasMainWindow then (s, [WindowOp.showWindow, WindowOp.setFocus])
    else (s, [])
  else if id = "always_on_top" then
    if hasMainWindow then
      ({ s with always_on_top := !s.always_on_top },
       [WindowOp.setAlwaysOnTop (!s.always_on_top)])
    else (s, [])
  else if id = "quit" then
    ({ s with exited := some 0 }, [])
  else
    (s, [])

/-- The tray icon pointer handler from `setup_tray`'s `on_tray_icon_event`
closure: on `Click { button: Left, button_state: Up, .. }` it looks up the
`"main"` window and, when present, calls `show()` then `set_focus()` with
results discarded; every other event falls through. -/
def on_tray_icon_event (e : TrayEvent) (hasMainWindow : Bool) :
    List WindowOp :=
  match e with
  | TrayEvent.click MouseButton.left MouseButtonState.up =>
      if hasMainWindow then [WindowOp.showWindow, WindowOp.setFocus] else []
  | _ => []

/-- The `tauri_plugin_single_instance` callback in `run`: on a forwarded
activation from a secondary launch it looks up the `"main"` window and, when
present, calls `show()` then `set_focus()` with results discarded. -/
def single_instance_callback (hasMainWindow : Bool) : List WindowOp :=
  if hasMainWindow then [WindowOp.showWindow, WindowOp.setFocus] else []

/-- The window event listener installed in `run`'s setup: on
`Focused(true)` it emits `"app-focus"`, on `Focused(false)` it emits
`"app-blur"`, and it ignores every other event. The result is the list of
notification names emitted for the one event. -/
def on_window_event (e : WindowEvent) : List String :=
  match e with
  | WindowEvent.focused true => ["app-focus"]
  | WindowEvent.focused false => ["app-blur"]
  | WindowEvent.other => []

/-- Notifications emitted across a sequence of delivered window events: the
listener runs once per event, so the traces concatenate. -/
def notifications (es : List WindowEvent) : List String :=
  es.flatMap on_window_event

/-- Whether an event is a `Focused` event. -/
def isFocusedEvent (e : WindowEvent) : Bool :=
  match e with
  | WindowEvent.focused _ => true
  | WindowEvent.other => false

/-- Number of logical focus transitions in an event sequence, starting from
logical focus state `focused`: a `Focused b` event counts when `b` differs
from the current logical state and updates it; other events are ignored. -/
def focusTransitions (focused : Bool) : List WindowEvent → Nat
  | [] => 0
  | WindowEvent.focused b :: rest =>
      (if b = focused then 0 else 1) + focusTransitions b rest
  | WindowEvent.other :: rest => focusTransitions focused rest

/-- C1: the `toggle_always_on_top` command returns the new boolean flag
value when the window-manager `set_always_on_top` call succeeds and the
error string when that call fails, and in either case the stored flag is
the flipped value — the flip happens before the window call is attempted,
so it stands regardless of the call's outcome. -/
theorem C1_command_toggle (flag : Bool) (res : Bool → Except String Unit) :
    (toggle_always_on_top flag res).1 = !flag ∧
    (∀ u, res (!flag) = Except.ok u →
      (toggle_always_on_top flag res).2 = Except.ok (!flag)) ∧
    (∀ e, res (!flag) = Except.error e →
      (toggle_always_on_top flag res).2 = Except.error e) := by
  unfold toggle_always_on_top
  refine ⟨?_, ?_, ?_⟩
  · cases h : res (!flag) <;> simp [h]
  · intro u hu; simp [hu]
  · intro e he; simp [he]

/-- Witness for C1 at a failing window call: the flag still flips and the
error string is returned. -/
theorem C1_command_toggle_witness :
    (toggle_always_on_top true (fun _ => Except.error "boom")).1 = false ∧
    (toggle_always_on_top true (fun _ => Except.error "boom")).2 =
      Except.error "boom" :=
  ⟨(C1_command_toggle true (fun _ => Except.error "boom")).1,
   (C1_command_toggle true (fun _ => Except.error "boom")).2.2 "boom" rfl⟩

/-- C2: selecting the tray entry `"always_on_top"` (with the main window
present) toggles the shared cell and then issues `set_always_on_top` with
the new value; the handler discards the window call's result, so the flag
stays toggled whatever that call does. The `toggle_always_on_top` command
likewise leaves the flag toggled for every possible window call outcome
`res`, failing ones included — no rollback on failure in either path. -/
theorem C2_no_rollback (s : SysState) (flag : Bool)
    (res : Bool → Except String Unit) :
    (on_menu_event "always_on_top" true s).1.always_on_top =
      !s.always_on_top ∧
    (on_menu_event "always_on_top" true s).2 =
      [WindowOp.setAlwaysOnTop (!s.always_on_top)] ∧
    (toggle_always_on_top flag res).1 = !flag := by
  unfold on_menu_event toggle_always_on_top
  refine ⟨by simp, by simp, ?_⟩
  cases h : res (!flag) <;> simp [h]

/-- C3: from a state where the flag is `true`, selecting `"always_on_top"`
issues `set_always_on_top(false)`, selecting it again issues
`set_always_on_top(true)`, and in general two consecutive selections
restore the original flag value — the toggle is an involution. -/
theorem C3_toggle_involution (s : SysState) :
    (on_menu_event "always_on_top" true
        (on_menu_event "always_on_top" true s).1).1.always_on_top =
      s.always_on_top ∧
    (on_menu_event "always_on_top" true
        { always_on_top := true, exited := none }).2 =
      [WindowOp.setAlwaysOnTop false] ∧
    (on_menu_event "always_on_top" true
        (on_menu_event "always_on_top" true
          { always_on_top := true, exited := none }).1).2 =
      [WindowOp.setAlwaysOnTop true] := by
  unfold on_menu_event
  simp

/-- C4: the shared flag is initialized to `true` at process start, and
applying the guarded toggle `n` times to any starting value yields the
starting value XOR the parity of `n` — every toggle takes effect. -/
theorem C4_init_and_parity :
    initialAlwaysOnTop = true ∧
    ∀ (n : Nat) (b : Bool),
      toggleN n b = Bool.xor b (decide (n % 2 = 1)) := by
  refine ⟨rfl, ?_⟩
  intro n
  induction n with
  | zero => intro b; simp [toggleN]
  | succ n ih =>
    intro b
    rw [toggleN, ih (toggleFlag b)]
    have h2 : (n + 1) % 2 = 1 - n % 2 := by omega
    rcases Nat.mod_two_eq_zero_or_one n with h | h <;>
      rw [h2, h] <;> cases b <;> simp [toggleFlag]

/-- C5 counterexample: two redundant `Focused(true)` platform events,
delivered while the window is already logically focused, make the listener
emit two `"app-focus"` notifications although zero logical focus
transitions occur — the notification count equals the event count, not the
transition count, contradicting the claim's coalescing. -/
theorem C5_counterexample :
    notifications [WindowEvent.focused true, WindowEvent.focused true] =
      ["app-focus", "app-focus"] ∧
    focusTransitions true
      [WindowEvent.focused true, WindowEvent.focused true] = 0 ∧
    (notifications
        [WindowEvent.focused true, WindowEvent.focused true]).length ≠
      focusTransitions true
        [WindowEvent.focused true, WindowEvent.focused true] := by
  refine ⟨rfl, rfl, ?_⟩
  decide

/-- C5 amended: the listener emits exactly one notification per `Focused`
platform event — `"app-focus"` for `Focused(true)`, `"app-blur"` for
`Focused(false)`, nothing for other events — so across any delivered
sequence the notification count equals the number of `Focused` events; the
handler keeps no state and performs no coalescing of redundant events. -/
theorem C5_per_event_emission (es : List WindowEvent) :
    (∀ b, on_window_event (WindowEvent.focused b) =
      [if b then "app-focus" else "app-blur"]) ∧
    on_window_event WindowEvent.other = [] ∧
    (notifications es).length = es.countP isFocusedEvent := by
  refine ⟨fun b => by cases b <;> rfl, rfl, ?_⟩
  induction es with
  | nil => rfl
  | cons e rest ih =>
    rw [notifications, List.flatMap_cons, List.length_append,
      List.countP_cons]
    rw [notifications] at ih
    rw [ih]
    cases e with
    | focused b =>
      cases b <;> simp [on_window_event, isFocusedEvent] <;> omega
    | other => simp [on_window_event, isFocusedEvent]

/-- C6: the single-instance callback, when the `"main"` window is found,
issues exactly `show()` then `set_focus()` on it; and for any lookup
outcome it never issues a window-creation operation — a secondary launch
never creates a new window. -/
theorem C6_single_instance :
    single_instance_callback true =
      [WindowOp.showWindow, WindowOp.setFocus] ∧
    ∀ b, WindowOp.createWindow ∉ single_instance_callback b := by
  refine ⟨rfl, ?_⟩
  intro b
  cases b <;> simp [single_instance_callback]

/-- C7: selecting the tray entry `"quit"` records process termination with
exit code 0 and nothing else: the flag is untouched and no window
operation is issued, whether or not the main window exists. -/
theorem C7_quit (hasMainWindow : Bool) (s : SysState) :
    (on_menu_event "quit" hasMainWindow s).1.exited = some 0 ∧
    (on_menu_event "quit" hasMainWindow s).1.always_on_top =
      s.always_on_top ∧
    (on_menu_event "quit" hasMainWindow s).2 = [] := by
  unfold on_menu_event
  simp

/-- C8: a left-button release on the tray glyph issues exactly the window
operations of the `"show"` menu entry (show then focus, results
suppressed), for either outcome of the main-window lookup; the `"show"`
entry changes no state; and every other pointer event issues nothing. -/
theorem C8_click_show_equivalence (hasMainWindow : Bool) (s : SysState)
    (e : TrayEvent) :
    on_tray_icon_event
        (TrayEvent.click MouseButton.left MouseButtonState.up)
        hasMainWindow =
      (on_menu_event "show" hasMainWindow s).2 ∧
    (on_menu_event "show" hasMainWindow s).1 = s ∧
    (e ≠ TrayEvent.click MouseButton.left MouseButtonState.up →
      on_tray_icon_event e hasMainWindow = []) := by
  unfold on_tray_icon_event on_menu_event
  refine ⟨by cases hasMainWindow <;> simp, by cases hasMainWindow <;> simp, ?_⟩
  intro h
  cases e with
  | other => rfl
  | click b bs =>
    cases b <;> cases bs <;> first | rfl | exact absurd rfl h

/-- Witness for C8: the left-release trace coincides with the `"show"`
trace at a concrete state, and a non-click event is a no-op. -/
theorem C8_click_show_equivalence_witness :
    on_tray_icon_event
        (TrayEvent.click MouseButton.left MouseButtonState.up) true =
      (on_menu_event "show" true
        { always_on_top := true, exited := none }).2 ∧
    on_tray_icon_event TrayEvent.other true = [] :=
  ⟨(C8_click_show_equivalence true
      { always_on_top := true, exited := none } TrayEvent.other).1,
   (C8_click_show_equivalence true
      { always_on_top := true, exited := none } TrayEvent.other).2.2
     (by decide)⟩

/-- C9: a menu-selection event whose id is none of `"show"`,
`"always_on_top"`, `"quit"` leaves the state unchanged and issues no
window operation and no exit — the handler's catch-all arm is a no-op. -/
theorem C9_unknown_id_noop (id : String) (hasMainWindow : Bool)
    (s : SysState) (h1 : id ≠ "show") (h2 : id ≠ "always_on_top")
    (h3 : id ≠ "quit") :
    on_menu_event id hasMainWindow s = (s, []) := by
  unfold on_menu_event
  simp [h1, h2, h3]

/-- Witness for C9 at the concrete id `"reload"`. -/
theorem C9_unknown_id_noop_witness :
    on_menu_event "reload" true { always_on_top := true, exited := none } =
      ({ always_on_top := true, exited := none }, []) :=
  C9_unknown_id_noop "reload" true
    { always_on_top := true, exited := none }
    (by decide) (by decide) (by decide)

/-- C10: when the lookup of the `"main"` window fails, the
`"always_on_top"` menu arm does nothing at all — the flag is left
unchanged and no `set_always_on_top` call is issued, because the toggle
sits inside the `if let Some(window)` branch. -/
theorem C10_toggle_requires_window (s : SysState) :
    on_menu_event "always_on_top" false s = (s, []) := by
  unfold on_menu_event
  simp

end Kb2Midi
